import Mathlib

/-!
Shallow embedding of the ingestion–batching–scoring pipeline of the
CATERPILLAR-HACK repository (src/app.py, with the near-duplicate scorer of
src/ml_model.py), together with theorems settling the frozen claims about it.

Modelling conventions:
* A Python JSON object (telemetry event) is an insertion-ordered association
  list `Event`; `dictInsert`/`dictUpdate` mirror `d[k] = v` / `d.update(...)`.
* `queue.Queue` under purely sequential use is a list; the accumulator's
  drain loop (`while not message_queue.empty(): batch.append(message_queue.get())`,
  app.py:107-108) is `drainLoop`.  For the concurrency claim the
  enqueue/drain interleaving is a labelled transition system `DrainStep`.
* The Keras model is an opaque collaborator: `predict` maps the batch to one
  row of scores per record; the source thresholds rows at 0.5
  (`(predictions >= 0.5).astype(int)`, app.py:135) which `thresholdRow`
  mirrors over ℚ.  A shape mismatch between `predict`'s output and the batch
  cannot arise from the real model (one output row per input row), so row
  pairing is by `List.zip`.
* Side effects are made explicit state: MongoDB `insert_many` success is
  recorded in `stored`, every attempted alert publish in `published`, the
  global `latest_data` in `latest`.  Exceptions that the source catches are
  modelled by the corresponding branch (a failed insert leaves `stored`
  unchanged; `publish_alert`'s internal try/except makes it total).
* pymongo's `insert_many` assigns a fresh `ObjectId` to the `_id` slot of
  every document that lacks one, IN PLACE and client-side, before any
  network I/O — so the drained batch records carry `_id` afterwards even
  when the insert itself fails.  This is modelled by `insertManyIds`, with
  the driver's id generator an explicit `ids : Nat → String` parameter
  (position in the batch ↦ the ObjectId's hex string).  `publish_alert`'s
  first statement rewrites that `_id` to its string form in place
  (app.py:85-86), again mutating the aliased batch record, and
  `convert_objectid` (app.py:223-228) stringifies `ObjectId` values when
  `/latest` serves `latest_data`.
-/

namespace MachinePipeline

/-- Scalar field values carried by telemetry events: the JSON scalars, plus
the BSON `ObjectId` that pymongo's `insert_many` assigns to the `_id` slot of
each inserted document (identified here by its hex string). -/
inductive Value where
  | str (s : String)
  | num (q : ℚ)
  | bool (b : Bool)
  | oid (s : String)
  deriving DecidableEq

/-- A telemetry Event: a Python dict, i.e. an insertion-ordered mapping from
field name to scalar value. -/
abbrev Event := List (String × Value)

/-- Python `d[k] = v`: overwrite the value in place if `k` is already a key
(keeping its position), otherwise append the new pair. -/
def dictInsert (d : Event) (k : String) (v : Value) : Event :=
  if d.any (fun p => p.1 = k) then
    d.map (fun p => if p.1 = k then (k, v) else p)
  else d ++ [(k, v)]

/-- Python `d.update(kvs)`: insert each pair in order. -/
def dictUpdate (d : Event) (kvs : List (String × Value)) : Event :=
  kvs.foldl (fun acc kv => dictInsert acc kv.1 kv.2) d

/-- The keys of an event, in insertion order. -/
def keys (e : Event) : List String := e.map Prod.fst

/-- Python `str()` as applied to the `_id` slot by `publish_alert`
(app.py:86).  In the pipeline that slot only ever holds a driver `ObjectId`
(or, if an inbound payload carried its own `_id`, whatever scalar it held);
the renderings of numbers differ from CPython's float formatting, which is
outside the embedding, and no theorem depends on them. -/
def pyStr : Value → Value
  | Value.oid s => Value.str s
  | Value.str s => Value.str s
  | Value.num q => Value.str (toString q)
  | Value.bool b => Value.str (if b then "True" else "False")

/-- The first statement of `publish_alert`'s try block (app.py:85-86):
`if "_id" in message: message["_id"] = str(message["_id"])`.  This mutates
the message — which aliases a batch record — in place, and runs before the
transport connect/publish, so it happens whether or not the publish then
fails. -/
def stringifyId (message : Event) : Event :=
  if message.any (fun p => p.1 = "_id") then
    message.map (fun p => if p.1 = "_id" then ("_id", pyStr p.2) else p)
  else message

/-- The client-side effect of `collection.insert_many(batch)` (app.py:114)
on its argument: pymongo assigns `document["_id"] = ObjectId()` to every
document that has no `_id` key, in place, while generating the insert
messages — before any network I/O, so the batch records carry `_id`
afterwards even when the insert fails.  `ids n` is the hex string of the
ObjectId generated for position `n`. -/
def insertManyIds (ids : Nat → String) : List Event → List Event
  | [] => []
  | doc :: rest =>
    (if doc.any (fun p => p.1 = "_id") then doc
     else doc ++ [("_id", Value.oid (ids 0))]) ::
      insertManyIds (fun n => ids (n + 1)) rest

/-- `message_queue.put(payload)` (app.py:77): FIFO enqueue at the tail. -/
def enqueue (q : List Event) (e : Event) : List Event := q ++ [e]

/-- A sequence of `enqueue` calls. -/
def enqueueAll (q : List Event) (es : List Event) : List Event :=
  es.foldl enqueue q

/-- The accumulator's drain loop, sequential semantics:
`while not message_queue.empty(): batch.append(message_queue.get())`
(app.py:107-108).  Returns the accumulated batch and the remaining queue. -/
def drainLoop : List Event → List Event → List Event × List Event
  | [], batch => (batch, [])
  | e :: rest, batch => drainLoop rest (batch ++ [e])

/-- Draining the whole queue into one batch, starting from an empty batch. -/
def drain_all (q : List Event) : List Event × List Event := drainLoop q []

/-- `pd.DataFrame(batch)[feature_columns]` (app.py:132-133) succeeds iff every
required feature name is a column of the frame, i.e. occurs as a key in at
least one record of the batch; otherwise pandas raises `KeyError`. -/
def hasAllFeatureColumns (features : List String) (batch : List Event) : Bool :=
  features.all (fun f => batch.any (fun ev => (keys ev).contains f))

/-- `anomaly_flags = dict(zip(anomaly_labels, map(bool, pred)))` (app.py:140):
a dict built from the label/boolean pairs, a later duplicate label
overwriting an earlier one. -/
def mkFlags (labels : List String) (pred : List Bool) : List (String × Value) :=
  dictUpdate [] ((labels.zip pred).map (fun p => (p.1, Value.bool p.2)))

/-- `any(anomaly_flags.values())` (app.py:141). -/
def flagsTrue (flags : List (String × Value)) : Bool :=
  flags.any (fun p => p.2 == Value.bool true)

/-- Whether a (thresholded prediction row, record) pair gets at least one true
anomaly flag. -/
def isFlagged (labels : List String) (row : List Bool × Event) : Bool :=
  flagsTrue (mkFlags labels row.1)

/-- The per-record loop of `detect_anomalies_batch` (app.py:137-144 and
ml_model.py:26-38): for each record, build the flag dict; if any flag is true,
`record.update(anomaly_flags)` mutates the record in place and the (mutated)
record is appended to `alerts`.  Returns the batch as it stands after the
loop together with the alerts list; the two share the mutated records. -/
def detectGo (labels : List String) : List (List Bool × Event) → List Event × List Event
  | [] => ([], [])
  | (pred, ev) :: rest =>
    let flags := mkFlags labels pred
    let out := detectGo labels rest
    if flagsTrue flags then
      let ev2 := dictUpdate ev flags
      (ev2 :: out.1, ev2 :: out.2)
    else (ev :: out.1, out.2)

/-- The scoring loop followed by the alert-publish loop, fused into one pass
over the rows (sound because both act record-wise): a flagged record is
mutated in place first by `record.update(anomaly_flags)` (app.py:142) and
then — because the alerts list aliases the batch records — by
`publish_alert`'s `_id` stringification (app.py:85-86) when the alert is
published.  Returns the batch after both in-place passes together with the
published payloads.  `detectAndPublishGo_pubs` proves this fusion equal to
detect-then-publish. -/
def detectAndPublishGo (labels : List String) :
    List (List Bool × Event) → List Event × List Event
  | [] => ([], [])
  | (pred, ev) :: rest =>
    let flags := mkFlags labels pred
    let out := detectAndPublishGo labels rest
    if flagsTrue flags then
      let ev2 := stringifyId (dictUpdate ev flags)
      (ev2 :: out.1, ev2 :: out.2)
    else (ev :: out.1, out.2)

/-- `predictions = (predictions >= 0.5).astype(int)` followed by `bool(...)`
(app.py:135, 139-140): threshold one row of model scores at 0.5. -/
def thresholdRow (row : List ℚ) : List Bool :=
  row.map (fun s => decide (mkRat 1 2 ≤ s))

/-- `detect_anomalies_batch` as defined in the pipeline itself (app.py:131-144).
The column selection is NOT wrapped in try/except there, so a required feature
column missing from the whole batch raises `KeyError` out of the function,
modelled as `Except.error`.  On success it returns the batch after the
in-place mutations together with the alerts list. -/
def detect_anomalies_batch (predict : List Event → List (List ℚ))
    (features labels : List String) (batch : List Event) :
    Except String (List Event × List Event) :=
  if hasAllFeatureColumns features batch then
    .ok (detectGo labels (((predict batch).map thresholdRow).zip batch))
  else .error "KeyError"

/-- `detect_anomalies_batch` as defined in the standalone scorer module
(ml_model.py:15-38): identical loop, but the column selection is wrapped in
`try/except KeyError` and the function returns `[]` in that case
(ml_model.py:17-21).  Only the alerts list is returned. -/
def mlDetectAnomaliesBatch (predict : List Event → List (List ℚ))
    (features labels : List String) (batch : List Event) : List Event :=
  if hasAllFeatureColumns features batch then
    (detectGo labels (((predict batch).map thresholdRow).zip batch)).2
  else []

/-- The `if anomaly_model: try: alerts = detect_anomalies_batch(batch) ...
except: logging.exception(...)` block of the accumulator (app.py:119-126):
with no model, or on a scoring exception, no alerts are produced and the
batch is left as drained (the only uncaught scorer exception, `KeyError`,
fires before any record is mutated). -/
def scoreBatch (predict : List Event → List (List ℚ))
    (features labels : List String) (modelLoaded : Bool) (batch : List Event) :
    List Event × List Event :=
  if modelLoaded then
    match detect_anomalies_batch predict features labels batch with
    | .ok r => r
    | .error _ => (batch, [])
  else (batch, [])

/-- The same model-guarded block (app.py:119-126) including the publish
loop's in-place effects, applied to the batch as already mutated by
`insert_many`: on success every flagged record is further mutated by the
`_id` stringification of its aliased alert, and the mutated alerts are the
published payloads; with no model, or on the scorer's `KeyError` (raised
before any record is touched, caught by the accumulator's except), the batch
is left as persisted and nothing is published.  `scoreAndPublish_pubs`
relates this to `scoreBatch` followed by the publish pass. -/
def scoreAndPublish (predict : List Event → List (List ℚ))
    (features labels : List String) (modelLoaded : Bool) (batch : List Event) :
    List Event × List Event :=
  if modelLoaded && hasAllFeatureColumns features batch then
    detectAndPublishGo labels (((predict batch).map thresholdRow).zip batch)
  else (batch, [])

/-- `publish_alert` (app.py:83-96): the whole body is wrapped in try/except,
so the call always returns; `failNet` says whether the underlying transport
publish raised.  The body first rewrites the message's `_id` to its string
form in place (`stringifyId`, app.py:85-86) and then publishes
`json.dumps(message)`, so the attempted payload is the stringified
message. -/
def publish_alert (failNet : Bool) (message : Event) : Event × Bool :=
  (stringifyId message, !failNet)

/-- The `for alert in alerts: publish_alert(alert)` loop (app.py:122-124):
one attempted publish per alert, the `n`-th attempt failing iff `failAt n`.
Returns every attempted (payload, success) pair in order. -/
def publishAll (failAt : Nat → Bool) : List Event → List (Event × Bool)
  | [] => []
  | m :: rest => publish_alert (failAt 0) m :: publishAll (fun n => failAt (n + 1)) rest

/-- The observable state of the pipeline: the message queue, the global
`latest_data` (app.py:37, initially `{}`), the batches successfully persisted
by `collection.insert_many`, and every alert payload handed to
`publish_alert`. -/
structure PipelineState where
  queue : List Event
  latest : Event
  stored : List (List Event)
  published : List Event
  deriving DecidableEq

/-- The state at process start: empty queue, `latest_data = {}`. -/
def initState : PipelineState := ⟨[], [], [], []⟩

/-- One iteration of the `batch_processor` loop body after the sleep
(app.py:105-128): drain the queue; on an empty batch `continue`; otherwise
try `insert_many` — which first assigns `_id` to every record in place
(`insertManyIds`), and whose failure is caught (app.py:113-117) after that
assignment — then run the scoring and alert-publish block, whose in-place
effects and published payloads `scoreAndPublish` gives (its failure is
caught: app.py:119-126), and finally set `latest_data = batch[-1]` — the
last record of the batch as it stands after all the in-place mutations.
`ids` is the driver's ObjectId generator for this tick. -/
def tick (predict : List Event → List (List ℚ)) (features labels : List String)
    (ids : Nat → String) (modelLoaded persistOk : Bool) (s : PipelineState) :
    PipelineState :=
  let drained := drain_all s.queue
  let batch := drained.1
  if batch.isEmpty then { s with queue := drained.2 }
  else
    let batch1 := insertManyIds ids batch
    let res := scoreAndPublish predict features labels modelLoaded batch1
    { queue := drained.2
      latest := res.1.getLastD []
      stored := if persistOk then s.stored ++ [batch1] else s.stored
      published := s.published ++ res.2 }

/-- `convert_objectid` (app.py:223-228) as applied by `/latest` to one
record: `{k: str(v) if isinstance(v, ObjectId) else v for k, v in ...}` —
`ObjectId` values are rendered as their string, every other value is kept. -/
def convert_objectid (e : Event) : Event :=
  e.map (fun p =>
    (p.1, match p.2 with
          | Value.oid s => Value.str s
          | v => v))

/-- `GET /latest` (app.py:231-235): serve `convert_objectid(latest_data)`. -/
def get_latest (s : PipelineState) : Event := convert_objectid s.latest

/-- Several accumulator cycles: each cycle first enqueues that cycle's
arrivals, then runs one tick with that cycle's ObjectId generator and
persistence outcome. -/
def runTicks (predict : List Event → List (List ℚ)) (features labels : List String)
    (modelLoaded : Bool) :
    List (List Event × (Nat → String) × Bool) → PipelineState → PipelineState
  | [], s => s
  | (arrivals, ids, ok) :: rest, s =>
      runTicks predict features labels modelLoaded rest
        (tick predict features labels ids modelLoaded ok
          { s with queue := enqueueAll s.queue arrivals })

/-- Agreement of two pipeline states on everything except the persistence
log. -/
def sameButStored (a b : PipelineState) : Prop :=
  a.queue = b.queue ∧ a.latest = b.latest ∧ a.published = b.published

/-- A configuration of the concurrent enqueue/drain system: the live queue,
the batch the draining thread has accumulated, the full arrival history
(initial queue content followed by every later enqueue, in order), and
whether the drain loop has observed the queue empty and returned. -/
structure DrainConf where
  queue : List Event
  batch : List Event
  arrived : List Event
  done : Bool
  deriving DecidableEq

/-- Interleaved atomic actions of the subscriber thread and the accumulator's
drain loop.  `queue.Queue` serialises its operations under one lock, so each
action is atomic: a producer `put`, a consumer empty-check-and-`get` on a
nonempty queue, or the final empty observation that terminates the loop. -/
inductive DrainStep : DrainConf → DrainConf → Prop where
  | enq (e : Event) (c : DrainConf) :
      DrainStep c { c with queue := c.queue ++ [e], arrived := c.arrived ++ [e] }
  | deq (e : Event) (rest : List Event) (c : DrainConf) :
      c.queue = e :: rest → c.done = false →
      DrainStep c { c with queue := rest, batch := c.batch ++ [e] }
  | finish (c : DrainConf) : c.queue = [] → c.done = false →
      DrainStep c { c with done := true }

/-- Finitely many interleaved steps. -/
inductive DrainSteps : DrainConf → DrainConf → Prop where
  | refl (c : DrainConf) : DrainSteps c c
  | tail {a b c : DrainConf} : DrainSteps a b → DrainStep b c → DrainSteps a c

/-- The drain system's start: the queue holds the events already arrived,
the batch is empty, the drain loop is running. -/
def drainInit (q0 : List Event) : DrainConf := ⟨q0, [], q0, false⟩

/- Concrete sample data used by witnesses and counterexamples. -/

/-- A sample telemetry event with a single feature field `x`. -/
def wEvX : Event := [("x", Value.num 1)]

/-- A second sample event. -/
def wEvY : Event := [("y", Value.num 2)]

/-- `wEvX` after the scorer's in-place `record.update` attached the flag
`HighIdling ↦ true`. -/
def wEvFlagged : Event := [("x", Value.num 1), ("HighIdling", Value.bool true)]

/-- A model collaborator that scores every record 1.0 (above threshold). -/
def wPredictHigh : List Event → List (List ℚ) :=
  fun batch => batch.map (fun _ => [1])

/-- A model collaborator that scores every record 0.0 (below threshold). -/
def wPredictLow : List Event → List (List ℚ) :=
  fun batch => batch.map (fun _ => [0])

/-- A third sample event. -/
def wEvZ : Event := [("z", Value.num 3)]

/-- A model collaborator that flags only the second record of a 3-record
batch. -/
def wPredictMid : List Event → List (List ℚ) := fun _ => [[0], [1], [0]]

/-- A sample driver ObjectId generator assigning the same hex string to
every position. -/
def wIds : Nat → String := fun _ => "aaa"

/-! ## Helper lemmas -/

/-- The drain loop moves the whole queue onto the end of the batch. -/
theorem drainLoop_eq : ∀ (q b : List Event), drainLoop q b = (b ++ q, [])
  | [], b => by simp [drainLoop]
  | e :: rest, b => by rw [drainLoop, drainLoop_eq rest (b ++ [e])]; simp

/-- Sequentially, draining returns the whole queue in FIFO order and empties it. -/
theorem drain_all_eq (q : List Event) : drain_all q = (q, []) := by
  simp [drain_all, drainLoop_eq]

/-- A sequence of enqueues appends the events in arrival order. -/
theorem enqueueAll_eq : ∀ (es q : List Event), enqueueAll q es = q ++ es
  | [], q => by simp [enqueueAll]
  | e :: rest, q => by
    have h := enqueueAll_eq rest (enqueue q e)
    simp only [enqueueAll, List.foldl_cons] at h ⊢
    rw [h]; simp [enqueue]

/-- Rewriting the `_id` entries of an event with no `_id` key is a no-op. -/
theorem map_stringify_of_no_id :
    ∀ l : Event, l.any (fun p => p.1 = "_id") = false →
      l.map (fun p => if p.1 = "_id" then ("_id", pyStr p.2) else p) = l
  | [], _ => rfl
  | p :: rest, h => by
    simp only [List.any_cons, Bool.or_eq_false_iff] at h
    obtain ⟨h1, h2⟩ := h
    simp only [List.map_cons, map_stringify_of_no_id rest h2]
    rw [if_neg (by simpa using h1)]

/-- Stringifying the `_id` of a record of the shape the pipeline produces —
original fields (no `_id`), then the driver-added `_id`, then flags whose
keys are anomaly labels — rewrites exactly the `_id` entry. -/
theorem stringifyId_decompose (ev0 flags : Event) (i : String)
    (h0 : ev0.any (fun p => p.1 = "_id") = false)
    (hf : flags.any (fun p => p.1 = "_id") = false) :
    stringifyId (ev0 ++ [("_id", Value.oid i)] ++ flags) =
      ev0 ++ [("_id", Value.str i)] ++ flags := by
  have hany : (ev0 ++ [("_id", Value.oid i)] ++ flags).any
      (fun p => p.1 = "_id") = true := by
    simp [List.any_append]
  simp only [stringifyId, hany, if_true, List.map_append,
    map_stringify_of_no_id ev0 h0, map_stringify_of_no_id flags hf]
  simp [pyStr]

/-- The scoring loop leaves each record as it was except that a flagged
record is overwritten in place with its flags merged in. -/
theorem detectGo_fst (labels : List String) :
    ∀ rows : List (List Bool × Event),
      (detectGo labels rows).1 =
        rows.map (fun r =>
          if isFlagged labels r then dictUpdate r.2 (mkFlags labels r.1) else r.2)
  | [] => by simp [detectGo]
  | (pred, ev) :: rest => by
    have ih := detectGo_fst labels rest
    cases h : flagsTrue (mkFlags labels pred) <;>
      simp [detectGo, isFlagged, h, ih]

/-- The alerts list is exactly the flagged records, each as mutated in place. -/
theorem detectGo_snd (labels : List String) :
    ∀ rows : List (List Bool × Event),
      (detectGo labels rows).2 =
        (rows.filter (isFlagged labels)).map
          (fun r => dictUpdate r.2 (mkFlags labels r.1))
  | [] => by simp [detectGo]
  | (pred, ev) :: rest => by
    have ih := detectGo_snd labels rest
    cases h : flagsTrue (mkFlags labels pred) <;>
      simp [detectGo, isFlagged, h, ih]

/-- After the scoring and publish loops, each flagged record of the batch
has been mutated in place twice — flags merged in, then `_id` stringified —
and each unflagged record is untouched. -/
theorem detectAndPublishGo_fst (labels : List String) :
    ∀ rows : List (List Bool × Event),
      (detectAndPublishGo labels rows).1 =
        rows.map (fun r =>
          if isFlagged labels r then
            stringifyId (dictUpdate r.2 (mkFlags labels r.1))
          else r.2)
  | [] => by simp [detectAndPublishGo]
  | (pred, ev) :: rest => by
    have ih := detectAndPublishGo_fst labels rest
    cases h : flagsTrue (mkFlags labels pred) <;>
      simp [detectAndPublishGo, isFlagged, h, ih]

/-- The published payloads are exactly the flagged records, each carrying
its merged flags and stringified `_id`. -/
theorem detectAndPublishGo_snd (labels : List String) :
    ∀ rows : List (List Bool × Event),
      (detectAndPublishGo labels rows).2 =
        (rows.filter (isFlagged labels)).map
          (fun r => stringifyId (dictUpdate r.2 (mkFlags labels r.1)))
  | [] => by simp [detectAndPublishGo]
  | (pred, ev) :: rest => by
    have ih := detectAndPublishGo_snd labels rest
    cases h : flagsTrue (mkFlags labels pred) <;>
      simp [detectAndPublishGo, isFlagged, h, ih]

/-- The fused scoring-and-publishing pass publishes exactly what the
two-phase source does: the scorer's alerts, each stringified by
`publish_alert`. -/
theorem detectAndPublishGo_pubs (labels : List String)
    (rows : List (List Bool × Event)) :
    (detectAndPublishGo labels rows).2 =
      ((detectGo labels rows).2).map stringifyId := by
  rw [detectAndPublishGo_snd, detectGo_snd, List.map_map]
  rfl

/-- `scoreAndPublish` publishes the payloads of `scoreBatch`'s alerts after
`publish_alert`'s `_id` stringification — the fused block agrees with the
source's detect-then-publish structure. -/
theorem scoreAndPublish_pubs (predict : List Event → List (List ℚ))
    (features labels : List String) (ml : Bool) (batch : List Event) :
    (scoreAndPublish predict features labels ml batch).2 =
      ((scoreBatch predict features labels ml batch).2).map stringifyId := by
  cases ml with
  | false => simp [scoreAndPublish, scoreBatch]
  | true =>
    cases h : hasAllFeatureColumns features batch with
    | false => simp [scoreAndPublish, scoreBatch, detect_anomalies_batch, h]
    | true =>
      simp [scoreAndPublish, scoreBatch, detect_anomalies_batch, h,
        detectAndPublishGo_pubs]

/-- Setting a key absent from a dict appends the pair. -/
theorem dictInsert_fresh (d : Event) (k : String) (v : Value)
    (h : d.any (fun p => p.1 = k) = false) : dictInsert d k v = d ++ [(k, v)] := by
  simp only [dictInsert, h]; simp

/-- Updating a dict with pairwise-distinct keys none of which are already
present appends the pairs in order. -/
theorem dictUpdate_fresh : ∀ (kvs : List (String × Value)) (acc : Event),
    (∀ k ∈ kvs.map Prod.fst, acc.any (fun p => p.1 = k) = false) →
    (kvs.map Prod.fst).Nodup →
    dictUpdate acc kvs = acc ++ kvs
  | [], acc, _, _ => by simp [dictUpdate]
  | kv :: rest, acc, hfresh, hnd => by
    have h1 : dictInsert acc kv.1 kv.2 = acc ++ [kv] :=
      dictInsert_fresh _ _ _ (hfresh kv.1 (by simp))
    have hnd2 : (rest.map Prod.fst).Nodup := by
      simp only [List.map_cons, List.nodup_cons] at hnd; exact hnd.2
    have hmem : kv.1 ∉ rest.map Prod.fst := by
      simp only [List.map_cons, List.nodup_cons] at hnd; exact hnd.1
    have hfresh2 : ∀ k ∈ rest.map Prod.fst,
        (acc ++ [kv]).any (fun p => p.1 = k) = false := by
      intro k hk
      have h2 := hfresh k (by simp [hk])
      have hne : ¬ (kv.1 = k) := fun he => hmem (he ▸ hk)
      simp [List.any_append, h2, hne]
    have h3 := dictUpdate_fresh rest (acc ++ [kv]) hfresh2 hnd2
    simp only [dictUpdate, List.foldl_cons] at h3 ⊢
    rw [h1, h3]; simp

/-- Two states that agree off the persistence log still do so after a tick,
whatever the two persistence outcomes are. -/
theorem tick_congr (predict : List Event → List (List ℚ))
    (features labels : List String) (ids : Nat → String) (ml ok1 ok2 : Bool)
    (s t : PipelineState) (h : sameButStored s t) :
    sameButStored (tick predict features labels ids ml ok1 s)
      (tick predict features labels ids ml ok2 t) := by
  obtain ⟨h1, h2, h3⟩ := h
  simp only [tick, drain_all_eq, h1]
  cases hq : t.queue.isEmpty <;> simp [sameButStored, h1, h2, h3, hq]

/-- `tick_congr` extended over any further run of the accumulator. -/
theorem runTicks_congr (predict : List Event → List (List ℚ))
    (features labels : List String) (ml : Bool) :
    ∀ (ticks : List (List Event × (Nat → String) × Bool)) (s t : PipelineState),
      sameButStored s t →
      sameButStored (runTicks predict features labels ml ticks s)
        (runTicks predict features labels ml ticks t)
  | [], s, t, h => h
  | (arrivals, ids, ok) :: rest, s, t, h => by
    obtain ⟨h1, h2, h3⟩ := h
    simp only [runTicks]
    exact runTicks_congr predict features labels ml rest _ _
      (tick_congr predict features labels ids ml ok ok _ _
        (by exact ⟨by rw [h1], h2, h3⟩))

/-- A failed persistence call changes only the persistence log of the tick's
result: the client-side `_id` assignment precedes the I/O that fails, so the
batch records — and with them scoring, publishing and the cache update — are
identical on both outcomes. -/
theorem tick_stored_only (predict : List Event → List (List ℚ))
    (features labels : List String) (ids : Nat → String) (ml : Bool)
    (s : PipelineState) :
    tick predict features labels ids ml false s =
      { tick predict features labels ids ml true s with stored := s.stored } := by
  cases s with
  | mk q lat st pub =>
    simp only [tick, drain_all_eq]
    cases hq : q.isEmpty <;> simp [hq]

/-- Every interleaving of enqueues with drain-loop steps preserves
"batch so far ++ live queue = full arrival history". -/
theorem drainSteps_preserve {a b : DrainConf} (h : DrainSteps a b)
    (ha : a.batch ++ a.queue = a.arrived) : b.batch ++ b.queue = b.arrived := by
  induction h with
  | refl => exact ha
  | tail hs hstep ih =>
    cases hstep with
    | enq e c => simp only [← List.append_assoc, ih]
    | deq e rest c hq hd =>
      rw [List.append_assoc]
      simpa [hq] using ih
    | finish c hq hd => simpa using ih

/-- Once the drain loop has observed the queue empty and returned, its batch
is frozen, and everything that arrives later sits in the queue for the next
cycle. -/
theorem drainSteps_postDone {a b : DrainConf} (h : DrainSteps a b)
    (hd : a.done = true) (hq : a.queue = []) :
    b.done = true ∧ b.batch = a.batch ∧ b.arrived = a.arrived ++ b.queue := by
  induction h with
  | refl => exact ⟨hd, rfl, by simp [hq]⟩
  | tail hs hstep ih =>
    obtain ⟨ihd, ihb, iha⟩ := ih
    cases hstep with
    | enq e c =>
      refine ⟨ihd, ihb, ?_⟩
      simp only [iha, List.append_assoc]
    | deq e rest c hq2 hd2 => simp [hd2] at ihd
    | finish c hq2 hd2 => simp [hd2] at ihd

/-! ## Claim theorems -/

/-- Claim C1, counterexample: the claim says no event in the batch is
mutated by the persistence call or the scoring call, and that anomaly flags
are attached to a copy.  In fact `insert_many` assigns `_id` to the drained
record `{x: 1}` in place, and `record.update(anomaly_flags)` (app.py:142)
then mutates the record held in the batch itself: scoring the one-event
batch `[{x: 1}]` with a model that flags it leaves
`{x: 1, HighIdling: true}` in the batch, a value different from the drained
event, and the alerts list aliases that same mutated record. -/
theorem scoring_mutation_counterexample :
    insertManyIds wIds [wEvX] ≠ [wEvX] ∧
    detect_anomalies_batch wPredictHigh ["x"] ["HighIdling"] [wEvX] =
      .ok ([wEvFlagged], [wEvFlagged]) ∧ wEvFlagged ≠ wEvX :=
  ⟨by decide, by rfl, by decide⟩

/-- Claim C1, amended: persistence and scoring receive the same batch
object, but it is not an immutable snapshot — all three steps mutate its
events in place: the persistence call appends a driver `_id` to every record
lacking one (client-side, before the I/O), the scoring call merges the
anomaly flags into the originating record itself rather than a copy, and the
alert-publishing step rewrites each flagged record's `_id` to a string
through the alerts' aliasing of the batch records. -/
theorem pipeline_mutates_batch_in_place (labels : List String)
    (rows : List (List Bool × Event)) (ids : Nat → String) (doc : Event)
    (rest : List Event) (hid : doc.any (fun p => p.1 = "_id") = false) :
    insertManyIds ids (doc :: rest) =
      (doc ++ [("_id", Value.oid (ids 0))]) ::
        insertManyIds (fun n => ids (n + 1)) rest ∧
    (detectGo labels rows).1 =
      rows.map (fun r =>
        if isFlagged labels r then dictUpdate r.2 (mkFlags labels r.1) else r.2) ∧
    (detectGo labels rows).2 =
      (rows.filter (isFlagged labels)).map
        (fun r => dictUpdate r.2 (mkFlags labels r.1)) ∧
    (detectAndPublishGo labels rows).1 =
      rows.map (fun r =>
        if isFlagged labels r then
          stringifyId (dictUpdate r.2 (mkFlags labels r.1))
        else r.2) :=
  ⟨by simp [insertManyIds, hid], detectGo_fst labels rows,
    detectGo_snd labels rows, detectAndPublishGo_fst labels rows⟩

/-- Claim C1 witness: the in-place mutation chain on a concrete record with
no prior `_id`. -/
theorem pipeline_mutates_batch_in_place_witness :
    wEvX.any (fun p => p.1 = "_id") = false ∧
    (insertManyIds wIds (wEvX :: []) =
      (wEvX ++ [("_id", Value.oid (wIds 0))]) ::
        insertManyIds (fun n => wIds (n + 1)) [] ∧
    (detectGo ["HighIdling"] [([true], wEvX)]).1 =
      [([true], wEvX)].map (fun r =>
        if isFlagged ["HighIdling"] r then
          dictUpdate r.2 (mkFlags ["HighIdling"] r.1)
        else r.2) ∧
    (detectGo ["HighIdling"] [([true], wEvX)]).2 =
      ([([true], wEvX)].filter (isFlagged ["HighIdling"])).map
        (fun r => dictUpdate r.2 (mkFlags ["HighIdling"] r.1)) ∧
    (detectAndPublishGo ["HighIdling"] [([true], wEvX)]).1 =
      [([true], wEvX)].map (fun r =>
        if isFlagged ["HighIdling"] r then
          stringifyId (dictUpdate r.2 (mkFlags ["HighIdling"] r.1))
        else r.2)) :=
  ⟨by decide,
    pipeline_mutates_batch_in_place ["HighIdling"] [([true], wEvX)] wIds wEvX []
      (by decide)⟩

/-- Claim C2 (confirmed): a sequence of N enqueue calls followed by a drain
yields exactly those N events in arrival order and leaves the queue empty,
and an immediately subsequent drain returns the empty sequence. -/
theorem enqueue_drain_order (evs : List Event) :
    drain_all (enqueueAll [] evs) = (evs, []) ∧
    drain_all (drain_all (enqueueAll [] evs)).2 = ([], []) := by
  simp [enqueueAll_eq, drain_all_eq]

/-- Claim C3, counterexample: the claim says the latest-value read returns
the last element of the batch field-for-field equal to that event as
drained.  Even with no model loaded and no flag, `insert_many` has already
appended `_id` to the last record in place, and `/latest` serves it (with
the `ObjectId` stringified by `convert_objectid`), so the read is never
field-for-field equal to the event as drained. -/
theorem latest_mutated_counterexample :
    get_latest (tick wPredictLow ["x"] ["HighIdling"] wIds false true
        ⟨[wEvX], [], [], []⟩) = wEvX ++ [("_id", Value.str "aaa")] ∧
    wEvX ++ [("_id", Value.str "aaa")] ≠ wEvX :=
  ⟨by decide, by decide⟩

/-- Claim C3, amended: after a tick on a non-empty batch, the latest-value
read returns the last element of the batch as it stands after the
persistence and scoring steps — the drained event with the driver-added
`_id` appended in place (rendered as a string by `convert_objectid` on the
read, or already stringified by the alert publisher) and, when that event
was flagged, the anomaly flags merged in place; before any non-empty batch
has been processed the read returns the empty sentinel `{}`. -/
theorem latest_is_last_of_scored_batch (predict : List Event → List (List ℚ))
    (features labels : List String) (ids : Nat → String) (ml ok : Bool)
    (s : PipelineState) (h : s.queue ≠ []) :
    get_latest (tick predict features labels ids ml ok s) =
      convert_objectid
        ((scoreAndPublish predict features labels ml
            (insertManyIds ids s.queue)).1.getLastD []) ∧
    get_latest initState = [] := by
  constructor
  · have hne : s.queue.isEmpty = false := by
      cases hq : s.queue with
      | nil => exact absurd hq h
      | cons x xs => simp
    simp [tick, drain_all_eq, hne, get_latest]
  · rfl

/-- Claim C3 witness: a concrete non-empty one-event batch whose event is not
flagged. -/
theorem latest_is_last_of_scored_batch_witness :
    (PipelineState.mk [wEvX] [] [] []).queue ≠ [] ∧
    (get_latest (tick wPredictLow ["x"] ["HighIdling"] wIds true true
        (PipelineState.mk [wEvX] [] [] [])) =
      convert_objectid
        ((scoreAndPublish wPredictLow ["x"] ["HighIdling"] true
            (insertManyIds wIds
              (PipelineState.mk [wEvX] [] [] []).queue)).1.getLastD []) ∧
     get_latest initState = []) :=
  ⟨by decide,
    latest_is_last_of_scored_batch wPredictLow ["x"] ["HighIdling"] wIds true
      true (PipelineState.mk [wEvX] [] [] []) (by decide)⟩

/-- Claim C4, counterexample: the claim says scoring a batch in which every
record is missing a required feature returns an empty result set without
raising.  The pipeline's own scorer (app.py:131-144) does not guard the
column selection, so on the batch `[{y: 2}]` with required feature `x` it
raises `KeyError` instead of returning a result. -/
theorem missing_feature_raises_counterexample :
    detect_anomalies_batch wPredictHigh ["x"] ["HighIdling"] [wEvY] =
      .error "KeyError" := by rfl

/-- Claim C4, amended: when a required feature column is absent from every
record of the batch, the pipeline's scorer (app.py) raises `KeyError`, which
the accumulator catches at whole-batch granularity — that tick produces no
alerts and leaves the batch unmutated — while the standalone scorer module
(ml_model.py:17-21) catches the `KeyError` itself and returns an empty
result set without raising.  Neither implementation excludes individual
events: exclusion is per batch (app.py) or per batch column (ml_model.py). -/
theorem missing_feature_column_behaviour (predict : List Event → List (List ℚ))
    (features labels : List String) (batch : List Event)
    (h : hasAllFeatureColumns features batch = false) :
    detect_anomalies_batch predict features labels batch = .error "KeyError" ∧
    mlDetectAnomaliesBatch predict features labels batch = [] ∧
    scoreBatch predict features labels true batch = (batch, []) := by
  refine ⟨?_, ?_, ?_⟩ <;>
    simp [detect_anomalies_batch, mlDetectAnomaliesBatch, scoreBatch, h]

/-- Claim C4 witness: the concrete batch `[{y: 2}]` with required feature
`x`. -/
theorem missing_feature_column_behaviour_witness :
    hasAllFeatureColumns ["x"] [wEvY] = false ∧
    (detect_anomalies_batch wPredictLow ["x"] ["HighIdling"] [wEvY] =
        .error "KeyError" ∧
     mlDetectAnomaliesBatch wPredictLow ["x"] ["HighIdling"] [wEvY] = [] ∧
     scoreBatch wPredictLow ["x"] ["HighIdling"] true [wEvY] = ([wEvY], [])) :=
  ⟨by decide,
    missing_feature_column_behaviour wPredictLow ["x"] ["HighIdling"] [wEvY]
      (by decide)⟩

/-- Claim C5, counterexample: the claim says the published payload equals
the flagged event's original fields plus the flags and nothing else.  But
alerts are only ever produced from batches that already passed through
`insert_many`, so the payload also carries the driver-added `_id`
(stringified by publish_alert, app.py:85-86): for the drained event
`{x: 1}`, the single published payload is
`{x: 1, _id: "aaa", HighIdling: true}`, not `{x: 1, HighIdling: true}`. -/
theorem alert_payload_extra_id_counterexample :
    (tick wPredictHigh ["x"] ["HighIdling"] wIds true true
        ⟨[wEvX], [], [], []⟩).published =
      [[("x", Value.num 1), ("_id", Value.str "aaa"),
        ("HighIdling", Value.bool true)]] ∧
    [("x", Value.num 1), ("_id", Value.str "aaa"),
      ("HighIdling", Value.bool true)] ≠
      dictUpdate wEvX (mkFlags ["HighIdling"] [true]) :=
  ⟨by decide, by decide⟩

/-- Claim C5, amended: when exactly one event of the batch is flagged, the
alert-publish loop is invoked exactly once, and the published payload is
that event's original fields, followed by the driver-added `_id` rendered as
a string, followed by the anomaly-kind boolean flags merged in — and nothing
else.  (The side conditions say the flag labels are pairwise distinct and
name neither `_id` nor an existing field, the generic telemetry case.) -/
theorem single_flagged_event_single_publish (labels : List String)
    (rows : List (List Bool × Event)) (failAt : Nat → Bool) (pred : List Bool)
    (ev0 : Event) (i : String)
    (hone : rows.filter (isFlagged labels) =
      [(pred, ev0 ++ [("_id", Value.oid i)])])
    (h0 : ev0.any (fun p => p.1 = "_id") = false)
    (hfresh : ∀ k ∈ (mkFlags labels pred).map Prod.fst,
      (ev0 ++ [("_id", Value.oid i)]).any (fun p => p.1 = k) = false)
    (hnd : ((mkFlags labels pred).map Prod.fst).Nodup) :
    (detectAndPublishGo labels rows).2 =
      [ev0 ++ [("_id", Value.str i)] ++ mkFlags labels pred] ∧
    publishAll failAt (detectGo labels rows).2 =
      [(ev0 ++ [("_id", Value.str i)] ++ mkFlags labels pred, !failAt 0)] := by
  have hf : (mkFlags labels pred).any (fun p => p.1 = "_id") = false := by
    cases hcase : (mkFlags labels pred).any (fun p => p.1 = "_id") with
    | false => rfl
    | true =>
      exfalso
      rw [List.any_eq_true] at hcase
      obtain ⟨p, hp, hpid⟩ := hcase
      have hk : "_id" ∈ (mkFlags labels pred).map Prod.fst := by
        rw [List.mem_map]
        exact ⟨p, hp, by simpa using hpid⟩
      have hcontra := hfresh "_id" hk
      simp [List.any_append] at hcontra
  have hupd : dictUpdate (ev0 ++ [("_id", Value.oid i)]) (mkFlags labels pred) =
      ev0 ++ [("_id", Value.oid i)] ++ mkFlags labels pred :=
    dictUpdate_fresh _ _ hfresh hnd
  have hstr := stringifyId_decompose ev0 (mkFlags labels pred) i h0 hf
  constructor
  · rw [detectAndPublishGo_snd, hone]
    simp only [List.map_cons, List.map_nil]
    rw [hupd, hstr]
  · rw [detectGo_snd, hone]
    simp only [List.map_cons, List.map_nil, publishAll, publish_alert]
    rw [hupd, hstr]

/-- Claim C5 witness: a 3-row post-insert batch whose second record alone is
flagged `HighIdling`, with every publish succeeding. -/
theorem single_flagged_event_single_publish_witness :
    ([([false], wEvX ++ [("_id", Value.oid "aaa")]),
      ([true], wEvY ++ [("_id", Value.oid "aaa")]),
      ([false], wEvZ ++ [("_id", Value.oid "aaa")])].filter
        (isFlagged ["HighIdling"]) =
      [([true], wEvY ++ [("_id", Value.oid "aaa")])] ∧
     wEvY.any (fun p => p.1 = "_id") = false ∧
     (∀ k ∈ (mkFlags ["HighIdling"] [true]).map Prod.fst,
       (wEvY ++ [("_id", Value.oid "aaa")]).any (fun p => p.1 = k) = false) ∧
     ((mkFlags ["HighIdling"] [true]).map Prod.fst).Nodup) ∧
    ((detectAndPublishGo ["HighIdling"]
        [([false], wEvX ++ [("_id", Value.oid "aaa")]),
         ([true], wEvY ++ [("_id", Value.oid "aaa")]),
         ([false], wEvZ ++ [("_id", Value.oid "aaa")])]).2 =
      [wEvY ++ [("_id", Value.str "aaa")] ++ mkFlags ["HighIdling"] [true]] ∧
     publishAll (fun _ => false)
        (detectGo ["HighIdling"]
          [([false], wEvX ++ [("_id", Value.oid "aaa")]),
           ([true], wEvY ++ [("_id", Value.oid "aaa")]),
           ([false], wEvZ ++ [("_id", Value.oid "aaa")])]).2 =
      [(wEvY ++ [("_id", Value.str "aaa")] ++ mkFlags ["HighIdling"] [true],
        !(fun _ : Nat => false) 0)]) :=
  ⟨⟨by decide, by decide, by decide, by decide⟩,
    single_flagged_event_single_publish ["HighIdling"]
      [([false], wEvX ++ [("_id", Value.oid "aaa")]),
       ([true], wEvY ++ [("_id", Value.oid "aaa")]),
       ([false], wEvZ ++ [("_id", Value.oid "aaa")])]
      (fun _ => false) [true] wEvY "aaa"
      (by decide) (by decide) (by decide) (by decide)⟩

/-- Claim C6 (confirmed): a tick whose drained batch is empty is a no-op —
no persistence call, no scoring call, no alert, and the latest-value cache
unchanged: the state is exactly as before. -/
theorem empty_tick_noop (predict : List Event → List (List ℚ))
    (features labels : List String) (ids : Nat → String) (ml ok : Bool)
    (s : PipelineState) (h : s.queue = []) :
    tick predict features labels ids ml ok s = s := by
  have h1 : tick predict features labels ids ml ok s = { s with queue := [] } := by
    simp [tick, h, drain_all, drainLoop]
  rw [h1, ← h]

/-- Claim C6 witness: an empty queue over a state with non-trivial cache,
store and publish history. -/
theorem empty_tick_noop_witness :
    (PipelineState.mk [] wEvX [[wEvY]] [wEvX]).queue = [] ∧
    tick wPredictHigh ["x"] ["HighIdling"] wIds true true
        (PipelineState.mk [] wEvX [[wEvY]] [wEvX]) =
      PipelineState.mk [] wEvX [[wEvY]] [wEvX] :=
  ⟨rfl,
    empty_tick_noop wPredictHigh ["x"] ["HighIdling"] wIds true true
      (PipelineState.mk [] wEvX [[wEvY]] [wEvX]) rfl⟩

/-- Claim C7 (confirmed): a persistence failure during a tick changes only
the persistence log — the same tick's scoring/alert-publish results and
cache update are identical to the successful-persistence tick — and every
later tick of the accumulator behaves identically off the persistence log
(the loop survives to the next tick). -/
theorem persist_failure_does_not_block_scoring
    (predict : List Event → List (List ℚ)) (features labels : List String)
    (ids : Nat → String) (ml : Bool) (s : PipelineState) :
    tick predict features labels ids ml false s =
      { tick predict features labels ids ml true s with stored := s.stored } ∧
    ∀ ticks : List (List Event × (Nat → String) × Bool),
      sameButStored
        (runTicks predict features labels ml ticks
          (tick predict features labels ids ml false s))
        (runTicks predict features labels ml ticks
          (tick predict features labels ids ml true s)) := by
  refine ⟨tick_stored_only predict features labels ids ml s, fun ticks => ?_⟩
  apply runTicks_congr
  rw [tick_stored_only predict features labels ids ml s]
  exact ⟨rfl, rfl, rfl⟩

/-- Claim C8 (confirmed): the publish loop attempts every alert of the batch
in order no matter which individual publishes fail: one attempt per alert,
each attempted payload the alert itself after `publish_alert`'s own `_id`
stringification (which precedes the fallible transport calls). -/
theorem alert_publish_failure_isolated (failAt : Nat → Bool)
    (alerts : List Event) :
    (publishAll failAt alerts).map Prod.fst = alerts.map stringifyId ∧
    (publishAll failAt alerts).length = alerts.length := by
  induction alerts generalizing failAt with
  | nil => simp [publishAll]
  | cons m rest ih =>
    obtain ⟨ih1, ih2⟩ := ih (fun n => failAt (n + 1))
    simp [publishAll, publish_alert, ih1, ih2]

/-- Claim C9 (confirmed): in every interleaving of enqueues with the drain
loop, the moment the loop observes the queue empty is an atomic snapshot
point: the batch then equals the entire arrival history so far (every event
enqueued strictly before the snapshot, in order, none lost or duplicated),
the batch never changes afterwards, and every event enqueued strictly after
the snapshot sits in the queue, which a subsequent drain returns as the next
batch. -/
theorem drain_atomic_snapshot (q0 : List Event) (c c2 : DrainConf)
    (hrun : DrainSteps (drainInit q0) c)
    (hq : c.queue = []) (_hd : c.done = false)
    (hafter : DrainSteps { c with done := true } c2) :
    c.batch = c.arrived ∧
    c2.batch = c.arrived ∧
    c2.arrived = c.arrived ++ c2.queue ∧
    drain_all c2.queue = (c2.queue, []) := by
  have h1 := drainSteps_preserve hrun (by simp [drainInit])
  have hb : c.batch = c.arrived := by simpa [hq] using h1
  obtain ⟨hd2, hbatch, harr⟩ := drainSteps_postDone hafter rfl (by simpa using hq)
  exact ⟨hb, by rw [hbatch]; exact hb, harr, drain_all_eq c2.queue⟩

/-- Claim C9 witness: the queue holds one event at drain start; the drain
loop takes it, observes empty (the snapshot), and a concurrent enqueue lands
after the snapshot and stays queued for the next batch. -/
theorem drain_atomic_snapshot_witness :
    (DrainConf.mk [] [wEvX] [wEvX] false).batch =
      (DrainConf.mk [] [wEvX] [wEvX] false).arrived ∧
    (DrainConf.mk [wEvY] [wEvX] [wEvX, wEvY] true).batch =
      (DrainConf.mk [] [wEvX] [wEvX] false).arrived ∧
    (DrainConf.mk [wEvY] [wEvX] [wEvX, wEvY] true).arrived =
      (DrainConf.mk [] [wEvX] [wEvX] false).arrived ++
        (DrainConf.mk [wEvY] [wEvX] [wEvX, wEvY] true).queue ∧
    drain_all (DrainConf.mk [wEvY] [wEvX] [wEvX, wEvY] true).queue =
      ((DrainConf.mk [wEvY] [wEvX] [wEvX, wEvY] true).queue, []) :=
  drain_atomic_snapshot [wEvX]
    (DrainConf.mk [] [wEvX] [wEvX] false)
    (DrainConf.mk [wEvY] [wEvX] [wEvX, wEvY] true)
    (DrainSteps.tail (DrainSteps.refl _)
      (DrainStep.deq wEvX [] (drainInit [wEvX]) rfl rfl))
    rfl rfl
    (DrainSteps.tail (DrainSteps.refl _)
      (DrainStep.enq wEvY (DrainConf.mk [] [wEvX] [wEvX] true)))

/-- Claim C10 (confirmed): when the model returns one score per label and the
labels are pairwise distinct, the flags dict built for a record has exactly
the scorer's label set as its keys, in order, each bound to a boolean — a
non-triggering kind is present with value false, never absent, and no key
outside the label set appears. -/
theorem flags_one_entry_per_label (labels : List String) (pred : List Bool)
    (hlen : pred.length = labels.length) (hnd : labels.Nodup) :
    (mkFlags labels pred).map Prod.fst = labels ∧
    ∀ q ∈ mkFlags labels pred, ∃ b : Bool, q.2 = Value.bool b := by
  have hkeys : ((labels.zip pred).map
      (fun p => (p.1, Value.bool p.2))).map Prod.fst = labels := by
    rw [List.map_map]
    have hc : (Prod.fst ∘ fun p : String × Bool => (p.1, Value.bool p.2)) =
        Prod.fst := rfl
    rw [hc, List.map_fst_zip]
    exact le_of_eq hlen.symm
  have heq : mkFlags labels pred =
      (labels.zip pred).map (fun p => (p.1, Value.bool p.2)) := by
    have h := dictUpdate_fresh
      ((labels.zip pred).map (fun p => (p.1, Value.bool p.2))) []
      (by intro k hk; rfl) (by rw [hkeys]; exact hnd)
    simpa [mkFlags] using h
  constructor
  · rw [heq, hkeys]
  · intro q hq
    rw [heq] at hq
    simp only [List.mem_map] at hq
    obtain ⟨p, hp, hqe⟩ := hq
    exact ⟨p.2, by rw [← hqe]⟩

/-- Claim C10 witness: two distinct labels, one score each, one flag true and
one false. -/
theorem flags_one_entry_per_label_witness :
    ([true, false] : List Bool).length =
      (["HighIdling", "Overheat"] : List String).length ∧
    (["HighIdling", "Overheat"] : List String).Nodup ∧
    ((mkFlags ["HighIdling", "Overheat"] [true, false]).map Prod.fst =
        ["HighIdling", "Overheat"] ∧
     ∀ q ∈ mkFlags ["HighIdling", "Overheat"] [true, false],
        ∃ b : Bool, q.2 = Value.bool b) :=
  ⟨by decide, by decide,
    flags_one_entry_per_label ["HighIdling", "Overheat"] [true, false]
      (by decide) (by decide)⟩

end MachinePipeline
